import Mathlib

/-!
Verification of the unc-gas gas-quantity crate.

The Rust type `UncGas` wraps a `u64` count of gas base units.  We model a
`u64` value as a natural number (assumed or proved `< 2^64` where relevant)
and translate each Rust operation from the source:

* `src/lib.rs` — the `UncGas` type, its constructors, accessors and its
  checked and saturating arithmetic;
* `src/trait_impls/display.rs` — the `Display` implementation.

The decimal parser lives in the crate file `utils.rs`, which is not part of
the sources given; it is modelled from the specification where needed, and
marked as such.
-/

/-- Size of the u64 value space. -/
def U64_SIZE : Nat := 2 ^ 64

/-- Largest u64 value, as a natural number. -/
def U64_MAX : Nat := 2 ^ 64 - 1

namespace U64

/-- Rust u64 checked addition: some on a representable sum, none on overflow. -/
def checked_add (a b : Nat) : Option Nat :=
  if a + b ≤ U64_MAX then some (a + b) else none

/-- Rust u64 checked subtraction: some when the difference is non-negative. -/
def checked_sub (a b : Nat) : Option Nat :=
  if b ≤ a then some (a - b) else none

/-- Rust u64 checked multiplication: some on a representable product. -/
def checked_mul (a b : Nat) : Option Nat :=
  if a * b ≤ U64_MAX then some (a * b) else none

/-- Rust u64 checked division: none exactly on a zero divisor. -/
def checked_div (a b : Nat) : Option Nat :=
  if b = 0 then none else some (a / b)

/-- Rust u64 saturating addition: clamps the sum at U64_MAX. -/
def saturating_add (a b : Nat) : Nat :=
  min (a + b) U64_MAX

/-- Rust u64 saturating subtraction: clamps at zero, which is exactly
truncated natural subtraction. -/
def saturating_sub (a b : Nat) : Nat :=
  a - b

/-- Rust u64 saturating multiplication: clamps the product at U64_MAX. -/
def saturating_mul (a b : Nat) : Nat :=
  min (a * b) U64_MAX

/-- Rust u64 saturating division.  The divisor is non-zero at the single
call site in the crate, which guards it explicitly; division cannot
overflow u64, so no clamping is required. -/
def saturating_div (a b : Nat) : Nat :=
  a / b

/-- Rust u64 wrapping multiplication, the release-mode semantics of the
unchecked `inner *= scale` in the scale constructors. -/
def wrapping_mul (a b : Nat) : Nat :=
  a * b % U64_SIZE

end U64

/-- The quantity type from src/lib.rs: a wrapper around a u64 count of gas
base units, modelled as a natural number. -/
structure UncGas where
  inner : Nat
deriving DecidableEq

/-- One tera gas in base units, the constant from src/lib.rs. -/
def ONE_TERA_GAS : Nat := 10 ^ 12

/-- One giga gas in base units, the constant from src/lib.rs. -/
def ONE_GIGA_GAS : Nat := 10 ^ 9

namespace UncGas

/-- Construct from a base-unit count (src/lib.rs from_gas). -/
def from_gas (inner : Nat) : UncGas :=
  ⟨inner⟩

/-- Construct from whole tera gas (src/lib.rs from_tgas).  The source
performs an unchecked `inner *= ONE_TERA_GAS`, which wraps modulo 2^64
under release-mode fixed-width semantics. -/
def from_tgas (inner : Nat) : UncGas :=
  ⟨U64.wrapping_mul inner ONE_TERA_GAS⟩

/-- Construct from whole giga gas (src/lib.rs from_ggas).  The source
performs an unchecked `inner *= ONE_GIGA_GAS`, which wraps modulo 2^64
under release-mode fixed-width semantics. -/
def from_ggas (inner : Nat) : UncGas :=
  ⟨U64.wrapping_mul inner ONE_GIGA_GAS⟩

/-- Base-unit accessor (src/lib.rs as_gas). -/
def as_gas (g : UncGas) : Nat :=
  g.inner

/-- Whole-giga accessor, integer division (src/lib.rs as_ggas). -/
def as_ggas (g : UncGas) : Nat :=
  g.inner / ONE_GIGA_GAS

/-- Whole-tera accessor, integer division (src/lib.rs as_tgas). -/
def as_tgas (g : UncGas) : Nat :=
  g.inner / ONE_TERA_GAS

/-- Checked addition (src/lib.rs checked_add). -/
def checked_add (a rhs : UncGas) : Option UncGas :=
  match U64.checked_add a.as_gas rhs.as_gas with
  | some gas => some (from_gas gas)
  | none => none

/-- Checked subtraction (src/lib.rs checked_sub). -/
def checked_sub (a rhs : UncGas) : Option UncGas :=
  match U64.checked_sub a.as_gas rhs.as_gas with
  | some gas => some (from_gas gas)
  | none => none

/-- Checked multiplication by a u64 scalar (src/lib.rs checked_mul). -/
def checked_mul (a : UncGas) (rhs : Nat) : Option UncGas :=
  match U64.checked_mul a.as_gas rhs with
  | some gas => some (from_gas gas)
  | none => none

/-- Checked division by a u64 scalar (src/lib.rs checked_div). -/
def checked_div (a : UncGas) (rhs : Nat) : Option UncGas :=
  match U64.checked_div a.as_gas rhs with
  | some gas => some (from_gas gas)
  | none => none

/-- Saturating addition (src/lib.rs saturating_add). -/
def saturating_add (a rhs : UncGas) : UncGas :=
  from_gas (U64.saturating_add a.as_gas rhs.as_gas)

/-- Saturating subtraction (src/lib.rs saturating_sub). -/
def saturating_sub (a rhs : UncGas) : UncGas :=
  from_gas (U64.saturating_sub a.as_gas rhs.as_gas)

/-- Saturating multiplication by a u64 scalar (src/lib.rs saturating_mul). -/
def saturating_mul (a : UncGas) (rhs : Nat) : UncGas :=
  from_gas (U64.saturating_mul a.as_gas rhs)

/-- Saturating division by a u64 scalar (src/lib.rs saturating_div): an
explicit guard returns the zero quantity on a zero divisor. -/
def saturating_div (a : UncGas) (rhs : Nat) : UncGas :=
  if rhs = 0 then from_gas 0 else from_gas (U64.saturating_div a.as_gas rhs)

end UncGas

/-- Ordering on quantities: the derived Rust Ord compares the single inner
field. -/
instance : LT UncGas := ⟨fun a b => a.inner < b.inner⟩

instance : LE UncGas := ⟨fun a b => a.inner ≤ b.inner⟩

instance (a b : UncGas) : Decidable (a < b) :=
  inferInstanceAs (Decidable (a.inner < b.inner))

instance (a b : UncGas) : Decidable (a ≤ b) :=
  inferInstanceAs (Decidable (a.inner ≤ b.inner))

/-- The behaviour of the Rust format specifier \x7b:03\x7d on a u64: the
decimal rendering, left-padded with zeros to at least three characters. -/
def rustPad3 (n : Nat) : String :=
  let s := toString n
  String.mk (List.replicate (3 - s.length) '0') ++ s

/-- The Display implementation from src/trait_impls/display.rs, translated
branch by branch.  The source writes, in order: "0 Tgas" for the zero
quantity; "<0.001 Tgas" below one giga; "0.\x7b:03\x7d Tgas" with a
ceiling-rounded giga count up to 999 giga; and otherwise "\x7b\x7d.\x7b\x7d Tgas"
from a ceiling-rounded count of tenths of tera, computed with u64
saturating addition. -/
def displayUncGas (g : UncGas) : String :=
  if g = UncGas.from_gas 0 then
    "0 Tgas"
  else if g < UncGas.from_ggas 1 then
    "<0.001 Tgas"
  else if g ≤ UncGas.from_ggas 999 then
    let gigagas_rounded_up := U64.saturating_add g.as_gas (ONE_GIGA_GAS - 1) / ONE_GIGA_GAS
    "0." ++ rustPad3 gigagas_rounded_up ++ " Tgas"
  else
    let terragas_rounded_up :=
      U64.saturating_add g.as_gas (100 * ONE_GIGA_GAS - 1) / ONE_GIGA_GAS / 100
    toString (terragas_rounded_up / 10) ++ "." ++ toString (terragas_rounded_up % 10) ++ " Tgas"

/-- Modelled from the spec: the low-level decimal parsing failure detail
carried by IncorrectNumber.  It lives in the crate file utils.rs, which is
absent from the given sources; the spec does not enumerate its cases, so a
single case carrying the offending text suffices for the claims. -/
inductive DecimalNumberParsingError where
  | invalidNumber (got : String)
deriving DecidableEq

/-- The error type of src/error.rs (absent from the given sources); its two
constructors and their payload shapes are fixed by the match in
src/trait_impls/display.rs and by the spec. -/
inductive UncGasError where
  | IncorrectNumber (cause : DecimalNumberParsingError)
  | IncorrectUnit (unit : String)
deriving DecidableEq

/-- Modelled from the spec: the number of trailing zero digits of a unit
multiplier.  The spec fixes the multipliers to the three constants 1, 10^9
and 10^12 with 0, 9 and 12 trailing zero digits respectively and makes the
table non-extensible. -/
def scaleDigitsOf (scale : Nat) : Nat :=
  if scale = 10 ^ 12 then 12 else if scale = 10 ^ 9 then 9 else 0

/-- Value of a non-empty list of decimal digit characters; none when the
list is empty or holds a non-digit.  Together with the split on the decimal
point below this realises the spec shape digits, optional point, digits. -/
def digitsToNat? (cs : List Char) : Option Nat :=
  if cs ≠ [] ∧ cs.all Char.isDigit then
    some (cs.foldl (fun a c => a * 10 + (c.toNat - 48)) 0)
  else none

/-- Modelled from the spec: the decimal-number parsing routine of the crate
file utils.rs (absent from the given sources), following spec steps 2 to 5.
The numeric portion must be digits with at most one decimal point and
digits on both sides; the fraction may not have more digits than the
multiplier has trailing zero digits; the exact value is the whole part
times the multiplier plus the fraction right-padded with zeros to that
digit count; a value beyond the u64 range fails. -/
def parse_decimal_number (s : String) (pref_const : Nat) :
    Except DecimalNumberParsingError Nat :=
  let scaleDigits := scaleDigitsOf pref_const
  let cs := s.toList
  let wholeCs := cs.takeWhile (fun c => c ≠ '.')
  let restCs := cs.dropWhile (fun c => c ≠ '.')
  match restCs with
  | [] =>
    match digitsToNat? wholeCs with
    | some w =>
      if w * pref_const ≤ U64_MAX then .ok (w * pref_const)
      else .error (.invalidNumber s)
    | none => .error (.invalidNumber s)
  | _ :: fracCs =>
    match digitsToNat? wholeCs, digitsToNat? fracCs with
    | some w, some f =>
      if fracCs.length ≤ scaleDigits then
        if w * pref_const + f * 10 ^ (scaleDigits - fracCs.length) ≤ U64_MAX then
          .ok (w * pref_const + f * 10 ^ (scaleDigits - fracCs.length))
        else .error (.invalidNumber s)
      else .error (.invalidNumber s)
    | _, _ => .error (.invalidNumber s)

/-- Modelled from the spec: parsing the numeric portion at a given unit
multiplier into a quantity, wrapping a parse failure in IncorrectNumber as
the FromStr implementation does after the unit suffix has been split off. -/
def parseUncGasNumeric (s : String) (pref_const : Nat) : Except UncGasError UncGas :=
  match parse_decimal_number s pref_const with
  | .ok v => .ok (UncGas.from_gas v)
  | .error e => .error (.IncorrectNumber e)

instance {ε α : Type} [DecidableEq ε] [DecidableEq α] : DecidableEq (Except ε α) := fun a b =>
  match a, b with
  | .error e, .error f => decidable_of_iff (e = f) (by simp)
  | .ok x, .ok y => decidable_of_iff (x = y) (by simp)
  | .error _, .ok _ => isFalse (by simp)
  | .ok _, .error _ => isFalse (by simp)

/-- Whether a parse result is the IncorrectNumber failure, payload aside. -/
def isIncorrectNumberError : Except UncGasError UncGas → Bool
  | .error (.IncorrectNumber _) => true
  | _ => false

/-- The spec formula for the high branch of Display: the exact mathematical
ceiling of v / 10^9 / 100, that is of v / 10^11, in tenths of tera. -/
def specTenthsOfTera (v : Nat) : Nat :=
  (v + (10 ^ 11 - 1)) / 10 ^ 11

/-- Claim C1: the Display rendering of a quantity matches the literal table
of the spec at the seven listed base-unit values. -/
theorem claim_C1_display_table :
    displayUncGas (UncGas.from_gas 0) = "0 Tgas" ∧
    displayUncGas (UncGas.from_gas 1) = "<0.001 Tgas" ∧
    displayUncGas (UncGas.from_gas 999999999) = "<0.001 Tgas" ∧
    displayUncGas (UncGas.from_gas 1000000000) = "0.001 Tgas" ∧
    displayUncGas (UncGas.from_gas 999000000001) = "1.0 Tgas" ∧
    displayUncGas (UncGas.from_gas 1000000000001) = "1.1 Tgas" ∧
    displayUncGas (UncGas.from_gas 100500000000000) = "100.5 Tgas" := by
  decide

/-- Claim C3: saturating division of any quantity by zero returns the zero
quantity, without failing. -/
theorem claim_C3_saturating_div_zero :
    ∀ x : UncGas, UncGas.saturating_div x 0 = UncGas.from_gas 0 :=
  fun _ => rfl

/-- Claim C5: checked division of any quantity by zero returns none. -/
theorem claim_C5_checked_div_zero :
    ∀ x : UncGas, UncGas.checked_div x 0 = none :=
  fun _ => rfl

/-- Claim C7: for every u64 value n, as_tgas of from_gas n is n divided by
10^12 by truncating integer division. -/
theorem claim_C7_as_tgas_truncates :
    ∀ n : Nat, (UncGas.from_gas n).as_tgas = n / 10 ^ 12 :=
  fun _ => rfl

/-- Claim C8: from_tgas stores n * 10^12 reduced modulo 2^64 and from_ggas
stores n * 10^9 reduced modulo 2^64; the multiplication is unchecked and
wraps, as the final conjunct shows on an input whose product overflows. -/
theorem claim_C8_scale_constructors_wrap :
    (∀ n : Nat, (UncGas.from_tgas n).as_gas = n * 10 ^ 12 % 2 ^ 64) ∧
    (∀ n : Nat, (UncGas.from_ggas n).as_gas = n * 10 ^ 9 % 2 ^ 64) ∧
    (UncGas.from_tgas 18446745).as_gas ≠ 18446745 * 10 ^ 12 := by
  refine ⟨fun n => rfl, fun n => rfl, by decide⟩

/-- Claim C6: parsing the text 1.1 with the tera multiplier succeeds with
from_gas 1100000000000, while 13 fractional digits exceed the 12 digits of
tera precision and fail with IncorrectNumber rather than being truncated. -/
theorem claim_C6_tera_fraction_precision :
    parseUncGasNumeric "1.1" (10 ^ 12) = .ok (UncGas.from_gas 1100000000000) ∧
    isIncorrectNumberError (parseUncGasNumeric "1.0000000000001" (10 ^ 12)) = true := by
  decide

/-- Claim C4: checked addition of two u64 quantities is exact on a
representable sum and is none when the sum does not fit in 64 bits. -/
theorem claim_C4_checked_add_exact (a b : Nat) (ha : a < 2 ^ 64) (hb : b < 2 ^ 64) :
    (a + b < 2 ^ 64 →
      UncGas.checked_add (UncGas.from_gas a) (UncGas.from_gas b) =
        some (UncGas.from_gas (a + b))) ∧
    (2 ^ 64 ≤ a + b →
      UncGas.checked_add (UncGas.from_gas a) (UncGas.from_gas b) = none) := by
  have hmax : U64_MAX = 2 ^ 64 - 1 := rfl
  constructor
  · intro h
    have hle : a + b ≤ U64_MAX := by rw [hmax]; omega
    simp [UncGas.checked_add, U64.checked_add, UncGas.as_gas, UncGas.from_gas, if_pos hle]
  · intro h
    have hle : ¬ (a + b ≤ U64_MAX) := by rw [hmax]; omega
    simp [UncGas.checked_add, U64.checked_add, UncGas.as_gas, UncGas.from_gas, if_neg hle]

/-- Witness for claim C4 at a concrete representable pair. -/
theorem claim_C4_checked_add_exact_witness :
    UncGas.checked_add (UncGas.from_gas 3) (UncGas.from_gas 4) =
      some (UncGas.from_gas 7) :=
  (claim_C4_checked_add_exact 3 4 (by decide) (by decide)).1 (by decide)

/-- Claim C9: the checked and the saturating arithmetic families agree on
every input where the checked operation succeeds, the divisor being
non-zero for division. -/
theorem claim_C9_checked_saturating_agree :
    (∀ a b c : UncGas, UncGas.checked_add a b = some c → UncGas.saturating_add a b = c) ∧
    (∀ a b c : UncGas, UncGas.checked_sub a b = some c → UncGas.saturating_sub a b = c) ∧
    (∀ (a : UncGas) (s : Nat) (c : UncGas),
      UncGas.checked_mul a s = some c → UncGas.saturating_mul a s = c) ∧
    (∀ (a : UncGas) (s : Nat) (c : UncGas),
      s ≠ 0 → UncGas.checked_div a s = some c → UncGas.saturating_div a s = c) := by
  refine ⟨fun a b c h => ?_, fun a b c h => ?_, fun a s c h => ?_, fun a s c hs h => ?_⟩
  · by_cases hle : a.as_gas + b.as_gas ≤ U64_MAX
    · simp only [UncGas.checked_add, U64.checked_add, if_pos hle, Option.some.injEq] at h
      simp only [UncGas.saturating_add, U64.saturating_add, min_eq_left hle, h]
    · simp [UncGas.checked_add, U64.checked_add, if_neg hle] at h
  · by_cases hle : b.as_gas ≤ a.as_gas
    · simp only [UncGas.checked_sub, U64.checked_sub, if_pos hle, Option.some.injEq] at h
      simp only [UncGas.saturating_sub, U64.saturating_sub, h]
    · simp [UncGas.checked_sub, U64.checked_sub, if_neg hle] at h
  · by_cases hle : a.as_gas * s ≤ U64_MAX
    · simp only [UncGas.checked_mul, U64.checked_mul, if_pos hle, Option.some.injEq] at h
      simp only [UncGas.saturating_mul, U64.saturating_mul, min_eq_left hle, h]
    · simp [UncGas.checked_mul, U64.checked_mul, if_neg hle] at h
  · simp only [UncGas.checked_div, U64.checked_div, if_neg hs, Option.some.injEq] at h
    simp only [UncGas.saturating_div, U64.saturating_div, if_neg hs, h]

/-- Witness for claim C9 on concrete inputs for each of the four pairs. -/
theorem claim_C9_checked_saturating_agree_witness :
    UncGas.saturating_add (UncGas.from_gas 2) (UncGas.from_gas 3) = UncGas.from_gas 5 ∧
    UncGas.saturating_sub (UncGas.from_gas 5) (UncGas.from_gas 3) = UncGas.from_gas 2 ∧
    UncGas.saturating_mul (UncGas.from_gas 2) 3 = UncGas.from_gas 6 ∧
    UncGas.saturating_div (UncGas.from_gas 6) 3 = UncGas.from_gas 2 :=
  ⟨claim_C9_checked_saturating_agree.1 _ _ _ (by decide),
   claim_C9_checked_saturating_agree.2.1 _ _ _ (by decide),
   claim_C9_checked_saturating_agree.2.2.1 _ 3 _ (by decide),
   claim_C9_checked_saturating_agree.2.2.2 _ 3 _ (by decide) (by decide)⟩

set_option maxRecDepth 10000 in
theorem rustPad3_length_three : ∀ g : Nat, g < 1000 → (rustPad3 g).length = 3 := by
  decide

/-- Claim C10: on the three-decimal branch, for 10^9 ≤ v ≤ 999 * 10^9, the
rounded giga count lies between 1 and 999 and the output has the exact
shape 0.DDD Tgas with a three-character zero-padded fraction, never 0.000
and never four digits. -/
theorem claim_C10_three_decimal_shape (v : Nat) (h1 : 10 ^ 9 ≤ v) (h2 : v ≤ 999 * 10 ^ 9) :
    1 ≤ (v + (10 ^ 9 - 1)) / 10 ^ 9 ∧
    (v + (10 ^ 9 - 1)) / 10 ^ 9 ≤ 999 ∧
    displayUncGas (UncGas.from_gas v) =
      "0." ++ rustPad3 ((v + (10 ^ 9 - 1)) / 10 ^ 9) ++ " Tgas" ∧
    (rustPad3 ((v + (10 ^ 9 - 1)) / 10 ^ 9)).length = 3 := by
  refine ⟨by omega, by omega, ?_, rustPad3_length_three _ (by omega)⟩
  have hne : UncGas.from_gas v ≠ UncGas.from_gas 0 := by
    simp only [ne_eq, UncGas.from_gas, UncGas.mk.injEq]
    omega
  have hnlt : ¬ UncGas.from_gas v < UncGas.from_ggas 1 := by
    show ¬ v < U64.wrapping_mul 1 ONE_GIGA_GAS
    simp only [U64.wrapping_mul, ONE_GIGA_GAS, U64_SIZE]
    omega
  have hle999 : UncGas.from_gas v ≤ UncGas.from_ggas 999 := by
    show v ≤ U64.wrapping_mul 999 ONE_GIGA_GAS
    simp only [U64.wrapping_mul, ONE_GIGA_GAS, U64_SIZE]
    omega
  unfold displayUncGas
  rw [if_neg hne, if_neg hnlt, if_pos hle999]
  show "0." ++
      rustPad3 (U64.saturating_add (UncGas.from_gas v).as_gas (ONE_GIGA_GAS - 1) / ONE_GIGA_GAS) ++
      " Tgas" = _
  have harg :
      U64.saturating_add (UncGas.from_gas v).as_gas (ONE_GIGA_GAS - 1) / ONE_GIGA_GAS =
        (v + (10 ^ 9 - 1)) / 10 ^ 9 := by
    simp only [U64.saturating_add, UncGas.as_gas, UncGas.from_gas, ONE_GIGA_GAS, U64_MAX]
    omega
  rw [harg]

/-- Witness for claim C10 at the concrete value 1500000000. -/
theorem claim_C10_three_decimal_shape_witness :
    1 ≤ (1500000000 + (10 ^ 9 - 1)) / 10 ^ 9 ∧
    (1500000000 + (10 ^ 9 - 1)) / 10 ^ 9 ≤ 999 ∧
    displayUncGas (UncGas.from_gas 1500000000) =
      "0." ++ rustPad3 ((1500000000 + (10 ^ 9 - 1)) / 10 ^ 9) ++ " Tgas" ∧
    (rustPad3 ((1500000000 + (10 ^ 9 - 1)) / 10 ^ 9)).length = 3 :=
  claim_C10_three_decimal_shape 1500000000 (by norm_num) (by norm_num)

/-- Claim C2, amended: on the one-decimal branch the output is W.F Tgas
with the tenths-of-tera count equal to the exact ceiling of v / 10^9 / 100,
for every v with 999 * 10^9 < v ≤ 2^64 - 10^11, the range on which the
saturating addition in the source cannot clip; the two inequalities pin
specTenthsOfTera as the exact mathematical ceiling.  Above that range the
claim fails, see the counterexample. -/
theorem claim_C2_one_decimal_ceiling (v : Nat) (h1 : 999 * 10 ^ 9 < v)
    (h2 : v ≤ 2 ^ 64 - 10 ^ 11) :
    displayUncGas (UncGas.from_gas v) =
      toString (specTenthsOfTera v / 10) ++ "." ++
        toString (specTenthsOfTera v % 10) ++ " Tgas" ∧
    v ≤ 10 ^ 11 * specTenthsOfTera v ∧
    10 ^ 11 * specTenthsOfTera v < v + 10 ^ 11 := by
  refine ⟨?_, by simp only [specTenthsOfTera]; omega, by simp only [specTenthsOfTera]; omega⟩
  have hne : UncGas.from_gas v ≠ UncGas.from_gas 0 := by
    simp only [ne_eq, UncGas.from_gas, UncGas.mk.injEq]
    omega
  have hnlt : ¬ UncGas.from_gas v < UncGas.from_ggas 1 := by
    show ¬ v < U64.wrapping_mul 1 ONE_GIGA_GAS
    simp only [U64.wrapping_mul, ONE_GIGA_GAS, U64_SIZE]
    omega
  have hnle : ¬ UncGas.from_gas v ≤ UncGas.from_ggas 999 := by
    show ¬ v ≤ U64.wrapping_mul 999 ONE_GIGA_GAS
    simp only [U64.wrapping_mul, ONE_GIGA_GAS, U64_SIZE]
    omega
  unfold displayUncGas
  rw [if_neg hne, if_neg hnlt, if_neg hnle]
  show toString
        (U64.saturating_add (UncGas.from_gas v).as_gas (100 * ONE_GIGA_GAS - 1) / ONE_GIGA_GAS /
            100 / 10) ++ "." ++
      toString
        (U64.saturating_add (UncGas.from_gas v).as_gas (100 * ONE_GIGA_GAS - 1) / ONE_GIGA_GAS /
            100 % 10) ++ " Tgas" = _
  have harg :
      U64.saturating_add (UncGas.from_gas v).as_gas (100 * ONE_GIGA_GAS - 1) / ONE_GIGA_GAS /
          100 = specTenthsOfTera v := by
    simp only [U64.saturating_add, UncGas.as_gas, UncGas.from_gas, ONE_GIGA_GAS, U64_MAX,
      specTenthsOfTera]
    omega
  rw [harg]

/-- Witness for the amended claim C2 at the concrete value 1000000000001. -/
theorem claim_C2_one_decimal_ceiling_witness :
    displayUncGas (UncGas.from_gas 1000000000001) =
      toString (specTenthsOfTera 1000000000001 / 10) ++ "." ++
        toString (specTenthsOfTera 1000000000001 % 10) ++ " Tgas" ∧
    1000000000001 ≤ 10 ^ 11 * specTenthsOfTera 1000000000001 ∧
    10 ^ 11 * specTenthsOfTera 1000000000001 < 1000000000001 + 10 ^ 11 :=
  claim_C2_one_decimal_ceiling 1000000000001 (by norm_num) (by norm_num)

/-- Counterexample to claim C2 as stated: at v equal to the largest u64,
which lies on the one-decimal branch, the exact ceiling of v / 10^9 / 100
is 184467441, whose W.F rendering is 18446744.1 Tgas, yet the code clips
the saturating addition and prints 18446744.0 Tgas, one tenth lower. -/
theorem claim_C2_one_decimal_ceiling_counterexample :
    999 * 10 ^ 9 < 2 ^ 64 - 1 ∧
    displayUncGas (UncGas.from_gas (2 ^ 64 - 1)) = "18446744.0 Tgas" ∧
    specTenthsOfTera (2 ^ 64 - 1) = 184467441 ∧
    (2 ^ 64 - 1 : Nat) ≤ 10 ^ 11 * 184467441 ∧
    toString (specTenthsOfTera (2 ^ 64 - 1) / 10) ++ "." ++
      toString (specTenthsOfTera (2 ^ 64 - 1) % 10) ++ " Tgas" = "18446744.1 Tgas" ∧
    "18446744.0 Tgas" ≠ "18446744.1 Tgas" := by
  decide
